import Mathlib

/-!
Shallow embedding of the Flask dashboard `src/app.py` (table
`dbo.MLS_Master_Data1`, handlers `get_unique_values`,
`get_filtered_summary`, `update_mls_data`, `add_mls_data`,
`delete_mls_data`).

Modelling conventions:
- A SQL/JSON value is `Value := Option String`; `none` stands for SQL
  NULL and for JSON null.  All stored values are modelled by their
  string representation, so the `str(val)` conversion in
  `get_unique_values` is the identity.
- A table row, and likewise a JSON request body, is an association
  list from column name to value; rows of the real table carry every
  schema column, which the lookup-based accessor `getCol` reflects by
  treating an absent key as NULL.
- The database is a list of rows; for the read endpoint that can hit
  an unknown column we also carry the schema (list of valid column
  names), since a query naming a column outside the schema raises in
  SQL and the Python code catches the exception and returns `[]`.
- Python truthiness of a string field (`if not x`) is `truthy`:
  false exactly on `none` (absent / null) and `some ""`.
- Each mutation handler is a pure function from the database and the
  request fields to the HTTP response (status, success flag, message)
  paired with the new database.  The duplicate-key `IntegrityError`
  branch of `add_mls_data` fires exactly when a row with the same
  `MLS_Point_Code` already exists, mirroring the PRIMARY KEY
  constraint of the table.
-/

/-- A SQL or JSON value: `none` is NULL/null, `some s` a string value. -/
abbrev Value := Option String

/-- A table row / JSON object: association list from column name to value. -/
abbrev Row := List (String × Value)

/-- Column access on a row (SQL column reference / Python dict access);
an absent key reads as NULL. -/
def getCol (r : Row) (c : String) : Value :=
  (r.lookup c).getD none

/-- The effect of `SET c = v` on one row: every entry for column `c` is
replaced by `v`; other entries are untouched. -/
def setCol (r : Row) (c : String) (v : Value) : Row :=
  r.map (fun p => if p.1 = c then (c, v) else p)

/-- Python truthiness of an optional string: `None` and `""` are falsy. -/
def truthy : Value → Bool
  | none => false
  | some s => !(s == "")

/-- EDITABLE_COLS from `src/app.py` lines 29-47. -/
def EDITABLE_COLS : List String :=
  [ "S_No",
    "District_Code",
    "District_Name",
    "Mandal_Code",
    "Mandal_Name",
    "MLS_Point_Code",
    "MLS_Point_Name",
    "MLS_Point_Latitude",
    "MLS_Point_Logitude",
    "MLS_Point_Address",
    "MLS_Point_Incharge_Name",
    "MLS_Point_Incharge_CFMS_Corporation_EMP",
    "Storage_Capacity_in",
    "Contact_Number",
    "Email_ID",
    "Status",
    "Last_Updated" ]

/-! ## String ordering used to model SQL `ORDER BY` on a text column -/

/-- Lexicographic comparison of character lists by code point. -/
def charListLe : List Char → List Char → Bool
  | [], _ => true
  | _ :: _, [] => false
  | a :: as, b :: bs =>
    if a.val.toNat < b.val.toNat then true
    else if b.val.toNat < a.val.toNat then false
    else charListLe as bs

/-- Lexicographic string comparison by code point, modelling the SQL
collation order used by `ORDER BY` on a string column. -/
def strLe (a b : String) : Bool :=
  charListLe a.toList b.toList

/-- Sort ascending and remove duplicates: the combined effect of
`SELECT DISTINCT .. ORDER BY ..` followed by pandas `.unique()`. -/
def sortedDedup (l : List String) : List String :=
  (List.insertionSort (fun a b => strLe a b = true) l).dedup

/-! ## Read endpoints -/

/-- A database together with the schema of `dbo.MLS_Master_Data1`:
a query that names a column outside `schema` raises in SQL. -/
structure Database where
  schema : List String
  rows : List Row

/-- The condition under which `get_unique_values` adds a WHERE clause
(`if filter_column and filter_value and filter_value != "All"`,
line 64 of `src/app.py`). -/
def filterActive (filter_column filter_value : Option String) : Bool :=
  truthy filter_column && truthy filter_value && !(filter_value == some "All")

/-- Embedding of `get_unique_values` (`src/app.py` lines 49-79):
`SELECT DISTINCT col FROM dbo.MLS_Master_Data1 [WHERE fc = ?] ORDER BY col`,
then pandas `.dropna().unique()` and `str` conversion.  A query naming a
column outside the schema raises; the handler catches every exception
and returns `[]`. -/
def get_unique_values (db : Database) (column_name : String)
    (filter_column filter_value : Option String) : List String :=
  if column_name ∈ db.schema then
    if filterActive filter_column filter_value then
      match filter_column with
      | some fc =>
        if fc ∈ db.schema then
          sortedDedup (((db.rows.filter
            (fun r => getCol r fc == filter_value))).filterMap
            (fun r => getCol r column_name))
        else []
      | none => []
    else
      sortedDedup (db.rows.filterMap (fun r => getCol r column_name))
  else []

/-- The condition under which `get_filtered_summary` adds one equality
predicate for an argument (`if x and x != "All"`, lines 95-106). -/
def condActive (v : Option String) : Bool :=
  truthy v && !(v == some "All")

/-- The row predicate of the WHERE clause built by
`get_filtered_summary`: the conjunction of the active equality
predicates. -/
def summaryPred (district mandal mls_name mls_code : Option String)
    (r : Row) : Bool :=
  (!condActive district || (getCol r "District_Name" == district)) &&
  (!condActive mandal || (getCol r "Mandal_Name" == mandal)) &&
  (!condActive mls_name || (getCol r "MLS_Point_Name" == mls_name)) &&
  (!condActive mls_code || (getCol r "MLS_Point_Code" == mls_code))

/-- Embedding of `get_filtered_summary` (`src/app.py` lines 81-118):
`SELECT * FROM dbo.MLS_Master_Data1` with a dynamically built
conjunction of equality predicates. -/
def get_filtered_summary (db : List Row)
    (district mandal mls_name mls_code : Option String) : List Row :=
  db.filter (summaryPred district mandal mls_name mls_code)

/-- Modelled from the claim wording (spec section 4.2, claim C1): an
argument contributes an equality predicate exactly when it is non-null
and different from the sentinel "All" — with no exemption for the
empty string.  Used only to compare the claimed behaviour with the
code behaviour. -/
def claimCondActive (v : Option String) : Bool :=
  v.isSome && !(v == some "All")

/-- Modelled from the claim wording (spec section 4.2, claim C1): the
filtered-records function as the claim describes it. -/
def filteredRecords_claim (db : List Row)
    (district mandal mls_name mls_code : Option String) : List Row :=
  db.filter (fun r =>
    (!claimCondActive district || (getCol r "District_Name" == district)) &&
    (!claimCondActive mandal || (getCol r "Mandal_Name" == mandal)) &&
    (!claimCondActive mls_name || (getCol r "MLS_Point_Name" == mls_name)) &&
    (!claimCondActive mls_code || (getCol r "MLS_Point_Code" == mls_code)))

/-! ## Mutation endpoints -/

/-- An HTTP JSON response: status code, `success` flag and message. -/
structure Response where
  status : Nat
  success : Bool
  message : String
deriving DecidableEq, Repr

/-- Embedding of the `update_mls_data` handler (`src/app.py` lines
217-257).  Inputs are the three fields read from the JSON body, each
`none` when absent or null.  Returns the response and the new table
state.  `cursor.rowcount` of the UPDATE is the number of rows matching
the WHERE clause. -/
def update_mls_data (db : List Row)
    (mls_point_code column_name new_value : Value) : Response × List Row :=
  if !truthy mls_point_code || !truthy column_name || new_value == none then
    (⟨400, false, "Missing data"⟩, db)
  else
    let col := column_name.getD ""
    if col ∉ EDITABLE_COLS then
      (⟨403, false,
        "Column \x27" ++ col ++ "\x27 is not editable or does not exist."⟩, db)
    else
      let matched := fun r => getCol r "MLS_Point_Code" == mls_point_code
      let rowcount := db.countP matched
      let newDb := db.map (fun r => if matched r then setCol r col new_value else r)
      if rowcount == 0 then
        (⟨404, false, "No record found or no changes made."⟩, newDb)
      else
        (⟨200, true, "Data updated successfully"⟩, newDb)

/-- Embedding of the `add_mls_data` handler (`src/app.py` lines
259-299).  The JSON body is an association list (a Python dict, so
keys are distinct).  The `pyodbc.IntegrityError` duplicate-key branch
fires exactly when some existing row already carries the inserted
`MLS_Point_Code`. -/
def add_mls_data (db : List Row) (data : List (String × Value)) :
    Response × List Row :=
  if data.isEmpty then
    (⟨400, false, "No data provided"⟩, db)
  else
    let cols_to_insert := (data.map Prod.fst).filter (fun c => c ∈ EDITABLE_COLS)
    if !(cols_to_insert.contains "MLS_Point_Code")
        || !truthy (getCol data "MLS_Point_Code") then
      (⟨400, false, "MLS_Point_Code is required for adding a new record."⟩, db)
    else
      let newRow : Row := data.filter (fun p => p.1 ∈ EDITABLE_COLS)
      if db.any (fun r => getCol r "MLS_Point_Code" == getCol data "MLS_Point_Code") then
        (⟨409, false, "MLS Point Code already exists. Please use a unique code."⟩, db)
      else
        (⟨200, true, "New record added successfully"⟩, db ++ [newRow])

/-- Embedding of the `delete_mls_data` handler (`src/app.py` lines
301-327).  `cursor.rowcount` of the DELETE is the number of rows
matching the WHERE clause. -/
def delete_mls_data (db : List Row) (mls_point_code : Value) :
    Response × List Row :=
  if !truthy mls_point_code then
    (⟨400, false, "MLS Point Code is required for deletion"⟩, db)
  else
    let matched := fun r => getCol r "MLS_Point_Code" == mls_point_code
    let rowcount := db.countP matched
    let newDb := db.filter (fun r => !matched r)
    if rowcount == 0 then
      (⟨404, false, "Record not found"⟩, newDb)
    else
      (⟨200, true, "Record deleted successfully"⟩, newDb)

/-! ## Resource-lifecycle trace model of the three mutation handlers

Each handler wraps its database phase in `try .. except .. finally`
(`src/app.py` lines 232-257, 278-299, 309-327).  The trace records the
connection and cursor events in order.  `execOk` is true when
`cursor.execute` raises no exception; on an exception the `except`
branch runs (skipping `conn.commit()`) and the `finally` branch still
closes the cursor and the connection. -/

/-- One database-resource event of a mutation handler. -/
inductive DBEvent
  | openConn
  | openCursor
  | execute
  | commit
  | closeCursor
  | closeConn
deriving DecidableEq, Repr

/-- The event trace of the shared `try/except/finally` database phase:
open connection and cursor, execute the single statement, commit only
when the statement raised no exception, then always close the cursor
and the connection. -/
def dbPhaseTrace (execOk : Bool) : List DBEvent :=
  [DBEvent.openConn, DBEvent.openCursor, DBEvent.execute] ++
    (if execOk then [DBEvent.commit] else []) ++
    [DBEvent.closeCursor, DBEvent.closeConn]

/-- Resource trace of `update_mls_data`: both validation failures
return before `get_connection()` is called. -/
def update_mls_trace (mls_point_code column_name new_value : Value)
    (execOk : Bool) : List DBEvent :=
  if !truthy mls_point_code || !truthy column_name || new_value == none then []
  else if (column_name.getD "") ∉ EDITABLE_COLS then []
  else dbPhaseTrace execOk

/-- Resource trace of `add_mls_data`: both validation failures return
before `get_connection()` is called. -/
def add_mls_trace (data : List (String × Value)) (execOk : Bool) :
    List DBEvent :=
  if data.isEmpty then []
  else if !((((data.map Prod.fst).filter
        (fun c => c ∈ EDITABLE_COLS))).contains "MLS_Point_Code")
      || !truthy (getCol data "MLS_Point_Code") then []
  else dbPhaseTrace execOk

/-- Resource trace of `delete_mls_data`: the validation failure returns
before `get_connection()` is called. -/
def delete_mls_trace (mls_point_code : Value) (execOk : Bool) :
    List DBEvent :=
  if !truthy mls_point_code then []
  else dbPhaseTrace execOk

/-- Resource discipline of one handler trace: every opened connection
and cursor is closed, each opened connection executes exactly one
statement, at most one statement runs overall, the commit happens
exactly when the statement raised no exception, and the last event of
a nonempty trace is the connection release. -/
def balancedTrace (t : List DBEvent) (execOk : Bool) : Prop :=
  t.count DBEvent.closeConn = t.count DBEvent.openConn ∧
  t.count DBEvent.closeCursor = t.count DBEvent.openCursor ∧
  t.count DBEvent.execute = t.count DBEvent.openConn ∧
  t.count DBEvent.execute ≤ 1 ∧
  t.count DBEvent.commit = (if execOk then t.count DBEvent.execute else 0) ∧
  (t ≠ [] → t.getLast? = some DBEvent.closeConn)

/-! ## Evaluation checks of the embedding on concrete inputs -/

theorem eval_get_filtered_summary :
    get_filtered_summary
      [[("District_Name", some "A"), ("MLS_Point_Code", some "P1")],
       [("District_Name", some "B"), ("MLS_Point_Code", some "P2")]]
      (some "A") none none none =
      [[("District_Name", some "A"), ("MLS_Point_Code", some "P1")]] := by
  decide

theorem eval_update_mls_data :
    (update_mls_data [[("MLS_Point_Code", some "P1"), ("Status", some "Old")]]
      (some "P1") (some "Status") (some "Active")).2 =
      [[("MLS_Point_Code", some "P1"), ("Status", some "Active")]] := by
  decide

theorem eval_add_mls_data :
    (add_mls_data [] [("MLS_Point_Code", some "P1"), ("Junk", some "x")]).2 =
      [[("MLS_Point_Code", some "P1")]] := by
  decide

theorem eval_delete_mls_data :
    (delete_mls_data [[("MLS_Point_Code", some "P1")]] (some "P2")).1.status
      = 404 := by
  decide

theorem eval_get_unique_values :
    get_unique_values
      ⟨["District_Name", "Mandal_Name"],
       [[("District_Name", some "B"), ("Mandal_Name", some "M1")],
        [("District_Name", some "A"), ("Mandal_Name", some "M2")],
        [("District_Name", some "B"), ("Mandal_Name", none)],
        [("District_Name", none), ("Mandal_Name", some "M3")]]⟩
      "District_Name" none none = ["A", "B"] := by
  decide

/-! ## Order and sorting lemmas -/

theorem charListLe_total : ∀ as bs : List Char,
    charListLe as bs = true ∨ charListLe bs as = true := by
  intro as
  induction as with
  | nil => intro bs; left; rfl
  | cons a as ih =>
    intro bs
    cases bs with
    | nil => right; rfl
    | cons b bs =>
      rcases Nat.lt_trichotomy a.val.toNat b.val.toNat with h | h | h
      · left; simp [charListLe, h]
      · rcases ih bs with h2 | h2
        · left; simp [charListLe, h, h2]
        · right; simp [charListLe, h.symm, h2]
      · right; simp [charListLe, h]

theorem charListLe_trans : ∀ as bs cs : List Char,
    charListLe as bs = true → charListLe bs cs = true →
    charListLe as cs = true := by
  intro as
  induction as with
  | nil => intro bs cs _ _; rfl
  | cons a as ih =>
    intro bs cs h1 h2
    cases bs with
    | nil => simp [charListLe] at h1
    | cons b bs =>
      cases cs with
      | nil => simp [charListLe] at h2
      | cons c cs =>
        simp only [charListLe] at h1 h2 ⊢
        rcases Nat.lt_trichotomy a.val.toNat b.val.toNat with hab | hab | hab
        · rcases Nat.lt_trichotomy b.val.toNat c.val.toNat with hbc | hbc | hbc
          · simp [Nat.lt_trans hab hbc]
          · simp [hbc ▸ hab]
          · simp [hbc, Nat.lt_asymm hbc] at h2
        · rcases Nat.lt_trichotomy b.val.toNat c.val.toNat with hbc | hbc | hbc
          · simp [hab ▸ hbc]
          · rw [hab] at h1 ⊢
            rw [hbc] at h1 h2 ⊢
            simp [Nat.lt_irrefl] at h1 h2 ⊢
            exact ih _ _ h1 h2
          · simp [hbc, Nat.lt_asymm hbc] at h2
        · simp [hab, Nat.lt_asymm hab] at h1

theorem strLe_total (a b : String) : strLe a b = true ∨ strLe b a = true :=
  charListLe_total a.toList b.toList

theorem strLe_trans {a b c : String} (h1 : strLe a b = true)
    (h2 : strLe b c = true) : strLe a c = true :=
  charListLe_trans a.toList b.toList c.toList h1 h2

instance instStrLeIsTotal : IsTotal String (fun a b => strLe a b = true) :=
  ⟨strLe_total⟩

instance instStrLeIsTrans : IsTrans String (fun a b => strLe a b = true) :=
  ⟨fun _ _ _ => strLe_trans⟩

theorem sortedDedup_sorted (l : List String) :
    List.Sorted (fun a b => strLe a b = true) (sortedDedup l) :=
  List.Pairwise.sublist (List.dedup_sublist _)
    (List.sorted_insertionSort (fun a b => strLe a b = true) l)

theorem sortedDedup_nodup (l : List String) : (sortedDedup l).Nodup :=
  List.nodup_dedup _

theorem mem_sortedDedup {a : String} {l : List String} :
    a ∈ sortedDedup l ↔ a ∈ l := by
  simp [sortedDedup, List.mem_dedup, List.mem_insertionSort]

/-! ## Association-list lemmas -/

theorem mem_keys_of_lookup {l : List (String × Value)} {c : String}
    (h : (l.lookup c).isSome = true) : c ∈ l.map Prod.fst := by
  induction l with
  | nil => simp [List.lookup] at h
  | cons p t ih =>
    obtain ⟨k, w⟩ := p
    by_cases hk : k = c
    · simp [hk]
    · rw [List.lookup_cons] at h
      have hne : (c == k) = false := by simp [Ne.symm hk]
      simp only [hne] at h
      exact List.mem_cons_of_mem _ (ih h)

theorem lookup_setCol (r : Row) (c cset : String) (v : Value) :
    (setCol r cset v).lookup c =
      if c = cset then (if (r.lookup cset).isSome then some v else none)
      else r.lookup c := by
  induction r with
  | nil => simp [setCol, List.lookup]
  | cons p t ih =>
    obtain ⟨k, w⟩ := p
    simp only [setCol, List.map_cons] at ih ⊢
    by_cases hk : k = cset
    · subst hk
      by_cases hc : c = k
      · subst hc
        simp [List.lookup_cons]
      · have hck : (c == k) = false := by simp [hc]
        simp [List.lookup_cons, hc, hck, ih]
    · by_cases hc : c = k
      · subst hc
        simp [List.lookup_cons, hk]
      · have hck : (c == k) = false := by simp [hc]
        have hcsetk : (cset == k) = false := by simp [Ne.symm hk]
        simp only [List.lookup_cons, hk, if_false, hck, hcsetk, ih]

theorem getCol_setCol (r : Row) (c cset : String) (v : Value) :
    getCol (setCol r cset v) c =
      if c = cset ∧ (r.lookup cset).isSome then v else getCol r c := by
  unfold getCol
  rw [lookup_setCol]
  by_cases hc : c = cset
  · subst hc
    cases hs : r.lookup c with
    | none => simp [hs]
    | some w => simp [hs]
  · simp [hc]

theorem lookup_isSome_of_getCol {r : Row} {c : String} {x : String}
    (h : getCol r c = some x) : (r.lookup c).isSome = true := by
  unfold getCol at h
  cases hl : r.lookup c with
  | none => rw [hl] at h; simp at h
  | some w => simp [hl]

/-! ## Claim theorems -/

theorem condComponent_iff (v : Option String) (r : Row) (c : String) :
    (!condActive v || (getCol r c == v)) = true ↔
      ∀ s, v = some s → s ≠ "" → s ≠ "All" → getCol r c = some s := by
  cases v with
  | none => simp [condActive, truthy]
  | some s =>
    by_cases h1 : s = ""
    · subst h1
      simp [condActive, truthy]
    · by_cases h2 : s = "All"
      · subst h2
        simp [condActive, truthy]
      · simp [condActive, truthy, h1, h2]

/-- C1, counterexample: the claim says every non-null, non-"All"
argument contributes an equality predicate, but for the argument
`some ""` (non-null, different from "All") the code adds no predicate
at all, because the Python guard `if district and district != "All"`
treats the empty string as falsy.  On a one-row table whose district is
"X", the code returns the row while the claimed semantics returns
nothing. -/
theorem C1_counterexample_empty_string :
    get_filtered_summary [[("District_Name", some "X")]]
        (some "") none none none ≠
      filteredRecords_claim [[("District_Name", some "X")]]
        (some "") none none none := by
  decide

/-- C1, amended: `get_filtered_summary` returns exactly the rows of the
full table that satisfy the conjunction of equality predicates on the
supplied non-null, non-empty, non-"All" arguments; each such argument
contributes one equality predicate, arguments that are null, empty or
"All" impose no constraint, and a fully empty filter set returns the
entire table. -/
theorem C1_filteredRecords_conjunction (db : List Row)
    (district mandal mls_name mls_code : Option String) (r : Row) :
    (r ∈ get_filtered_summary db district mandal mls_name mls_code ↔
      r ∈ db ∧
      (∀ s, district = some s → s ≠ "" → s ≠ "All" →
        getCol r "District_Name" = some s) ∧
      (∀ s, mandal = some s → s ≠ "" → s ≠ "All" →
        getCol r "Mandal_Name" = some s) ∧
      (∀ s, mls_name = some s → s ≠ "" → s ≠ "All" →
        getCol r "MLS_Point_Name" = some s) ∧
      (∀ s, mls_code = some s → s ≠ "" → s ≠ "All" →
        getCol r "MLS_Point_Code" = some s)) ∧
    get_filtered_summary db none none none none = db := by
  constructor
  · simp only [get_filtered_summary, List.mem_filter]
    simp only [summaryPred, Bool.and_eq_true, condComponent_iff]
    tauto
  · simp only [get_filtered_summary]
    apply List.filter_eq_self.mpr
    intro a _
    simp [summaryPred, condActive, truthy]

/-- C1, witness: a concrete row passes a concrete filter through the
membership characterisation. -/
theorem C1_filteredRecords_conjunction_witness :
    ([("District_Name", some "A")] : Row) ∈
      get_filtered_summary
        [[("District_Name", some "A")], [("District_Name", some "B")]]
        (some "A") none none none :=
  (C1_filteredRecords_conjunction
      [[("District_Name", some "A")], [("District_Name", some "B")]]
      (some "A") none none none [("District_Name", some "A")]).1.mpr
    ⟨by decide,
     fun s hs _ _ => by injection hs with h; subst h; decide,
     fun s hs => Option.noConfusion hs,
     fun s hs => Option.noConfusion hs,
     fun s hs => Option.noConfusion hs⟩

/-- C2: for an update request whose three fields are present (non-empty
code and column name, non-null value, matching the spec signature
`updateField(code, column, value)`), a column name outside
EDITABLE_COLS yields HTTP 403 with `success = false`, leaves the table
unchanged, and causes no database interaction at all (the allow-list
check happens before a connection is opened and before the column name
is interpolated into any SQL). -/
theorem C2_forbidden_column (db : List Row) (code col v : Value)
    (hcode : truthy code = true) (hcol : truthy col = true)
    (hv : v ≠ none) (hforb : col.getD "" ∉ EDITABLE_COLS) :
    (update_mls_data db code col v).1.status = 403 ∧
    (update_mls_data db code col v).1.success = false ∧
    (update_mls_data db code col v).2 = db ∧
    (∀ execOk, update_mls_trace code col v execOk = []) := by
  have hv' : (v == none) = false := by
    cases v with
    | none => exact absurd rfl hv
    | some s => rfl
  simp [update_mls_data, update_mls_trace, hcode, hcol, hv', hforb]

/-- C2, witness: a concrete forbidden-column update request. -/
theorem C2_forbidden_column_witness :
    (update_mls_data [[("MLS_Point_Code", some "P1")]] (some "P1")
      (some "Not_A_Column") (some "x")).1.status = 403 ∧
    (update_mls_data [[("MLS_Point_Code", some "P1")]] (some "P1")
      (some "Not_A_Column") (some "x")).1.success = false ∧
    (update_mls_data [[("MLS_Point_Code", some "P1")]] (some "P1")
      (some "Not_A_Column") (some "x")).2 =
      [[("MLS_Point_Code", some "P1")]] ∧
    (∀ execOk,
      update_mls_trace (some "P1") (some "Not_A_Column") (some "x") execOk
        = []) :=
  C2_forbidden_column _ _ _ _ (by decide) (by decide) (by decide) (by decide)

theorem update_mls_data_snd (db : List Row) (code col v : Value) :
    (update_mls_data db code col v).2 = db ∨
    (v ≠ none ∧ (update_mls_data db code col v).2 =
      db.map (fun r => if getCol r "MLS_Point_Code" == code
        then setCol r (col.getD "") v else r)) := by
  by_cases h1 : (!truthy code || !truthy col || (v == none)) = true
  · left
    simp [update_mls_data, h1]
  · have hv : v ≠ none := by
      intro hveq
      subst hveq
      simp at h1
    by_cases h2 : (col.getD "") ∉ EDITABLE_COLS
    · left
      simp only [update_mls_data]
      rw [if_neg h1, if_pos h2]
    · right
      refine ⟨hv, ?_⟩
      simp only [update_mls_data]
      rw [if_neg h1, if_neg h2]
      split_ifs <;> rfl

/-- C9: an update request whose `value` field is null is rejected with
HTTP 400 and message "Missing data" regardless of the other fields (so
before the allow-list check), the table is unchanged, no database
connection is ever opened, and consequently the update endpoint can
never introduce a null into any column: if no row of the table has a
null in column `c`, the same holds after any update request. -/
theorem C9_null_value_rejected (db : List Row) (code col : Value) :
    (update_mls_data db code col none).1 = ⟨400, false, "Missing data"⟩ ∧
    (update_mls_data db code col none).2 = db ∧
    (∀ execOk, update_mls_trace code col none execOk = []) ∧
    (∀ v c, (∀ r ∈ db, getCol r c ≠ none) →
      ∀ r ∈ (update_mls_data db code col v).2, getCol r c ≠ none) := by
  refine ⟨by simp [update_mls_data], by simp [update_mls_data],
    fun execOk => by simp [update_mls_trace], ?_⟩
  intro v c hdb r hr
  rcases update_mls_data_snd db code col v with h | ⟨hv, h⟩
  · rw [h] at hr
    exact hdb r hr
  · rw [h, List.mem_map] at hr
    obtain ⟨a, ha, hfa⟩ := hr
    rw [← hfa]
    by_cases hm : (getCol a "MLS_Point_Code" == code) = true
    · rw [if_pos hm, getCol_setCol]
      by_cases hcc : c = col.getD "" ∧ (a.lookup (col.getD "")).isSome = true
      · rw [if_pos hcc]
        exact hv
      · rw [if_neg hcc]
        exact hdb a ha
    · rw [if_neg hm]
      exact hdb a ha

/-- C9, witness: a concrete null-valued update request is rejected with
400, and a concrete non-null update keeps the Status column non-null. -/
theorem C9_null_value_rejected_witness :
    (update_mls_data [[("Status", some "A"), ("MLS_Point_Code", some "P1")]]
      (some "P1") (some "Status") none).1 = ⟨400, false, "Missing data"⟩ ∧
    ∀ r ∈ (update_mls_data
        [[("Status", some "A"), ("MLS_Point_Code", some "P1")]]
        (some "P1") (some "Status") (some "B")).2,
      getCol r "Status" ≠ none := by
  constructor
  · exact (C9_null_value_rejected
      [[("Status", some "A"), ("MLS_Point_Code", some "P1")]]
      (some "P1") (some "Status")).1
  · exact (C9_null_value_rejected
      [[("Status", some "A"), ("MLS_Point_Code", some "P1")]]
      (some "P1") (some "Status")).2.2.2 (some "B") "Status" (by decide)

theorem update_mls_data_main (db : List Row) (code col v : String)
    (hc : code ≠ "") (hcol : col ∈ EDITABLE_COLS) :
    update_mls_data db (some code) (some col) (some v) =
      ((if (db.countP (fun r => getCol r "MLS_Point_Code" == some code)) == 0
        then ⟨404, false, "No record found or no changes made."⟩
        else ⟨200, true, "Data updated successfully"⟩ : Response),
       db.map (fun r => if getCol r "MLS_Point_Code" == some code
         then setCol r col (some v) else r)) := by
  have hcne : col ≠ "" := by
    rintro rfl
    revert hcol
    decide
  have h1 : ¬((!truthy (some code) || !truthy (some col)
      || ((some v : Value) == none)) = true) := by
    simp [truthy, hc, hcne]
  have h2 : ¬(((some col : Value).getD "") ∉ EDITABLE_COLS) := by
    simpa using hcol
  simp only [update_mls_data]
  rw [if_neg h1, if_neg h2]
  simp only [Option.getD_some]
  split_ifs <;> rfl

/-- C10: the primary-key column MLS_Point_Code is itself a member of
EDITABLE_COLS, so an update request naming it never yields the 403
forbidden-column outcome; for every row carrying the requested code the
rewritten row (primary key replaced by the new value) is in the
resulting table, and when such a row exists the request reports
success. -/
theorem C10_primary_key_editable (db : List Row) (code v : String)
    (hc : code ≠ "") :
    "MLS_Point_Code" ∈ EDITABLE_COLS ∧
    (update_mls_data db (some code) (some "MLS_Point_Code")
      (some v)).1.status ≠ 403 ∧
    (∀ r ∈ db, getCol r "MLS_Point_Code" = some code →
      setCol r "MLS_Point_Code" (some v) ∈
        (update_mls_data db (some code) (some "MLS_Point_Code") (some v)).2 ∧
      getCol (setCol r "MLS_Point_Code" (some v)) "MLS_Point_Code"
        = some v) ∧
    ((∃ r ∈ db, getCol r "MLS_Point_Code" = some code) →
      (update_mls_data db (some code) (some "MLS_Point_Code")
        (some v)).1.success = true) := by
  have hmem : "MLS_Point_Code" ∈ EDITABLE_COLS := by decide
  have hred := update_mls_data_main db code "MLS_Point_Code" v hc hmem
  refine ⟨hmem, ?_, ?_, ?_⟩
  · rw [hred]
    split_ifs <;> simp
  · intro r hr hcode_r
    constructor
    · rw [hred]
      refine List.mem_map.mpr ⟨r, hr, ?_⟩
      have hb : (getCol r "MLS_Point_Code" == some code) = true := by
        simp [hcode_r]
      simp [hb]
    · rw [getCol_setCol]
      rw [if_pos ⟨rfl, lookup_isSome_of_getCol hcode_r⟩]
  · intro hex
    obtain ⟨r, hr, hcode_r⟩ := hex
    rw [hred]
    have hpos : 0 < db.countP
        (fun r => getCol r "MLS_Point_Code" == some code) :=
      List.countP_pos_iff.mpr ⟨r, hr, by simp [hcode_r]⟩
    have hne : ((db.countP
        (fun r => getCol r "MLS_Point_Code" == some code)) == 0) = false := by
      simp [Nat.pos_iff_ne_zero.mp hpos]
    simp [hne]

/-- C10, witness: updating MLS_Point_Code on a concrete one-row table
passes the allow-list check and succeeds. -/
theorem C10_primary_key_editable_witness :
    "MLS_Point_Code" ∈ EDITABLE_COLS ∧
    (update_mls_data [[("MLS_Point_Code", some "P1")]] (some "P1")
      (some "MLS_Point_Code") (some "P2")).1.success = true := by
  constructor
  · exact (C10_primary_key_editable [[("MLS_Point_Code", some "P1")]]
      "P1" "P2" (by decide)).1
  · exact (C10_primary_key_editable [[("MLS_Point_Code", some "P1")]]
      "P1" "P2" (by decide)).2.2.2
      ⟨[("MLS_Point_Code", some "P1")], by decide, by decide⟩

/-- C5: for an update request with an allow-listed column and present
code and value, the handler returns the 404 notFound response with
`success = false` when the UPDATE matches zero rows, and the success
response when it matches at least one row. -/
theorem C5_update_rowcount (db : List Row) (code col v : String)
    (hc : code ≠ "") (hcol : col ∈ EDITABLE_COLS) :
    (db.countP (fun r => getCol r "MLS_Point_Code" == some code) = 0 →
      (update_mls_data db (some code) (some col) (some v)).1 =
        ⟨404, false, "No record found or no changes made."⟩) ∧
    (0 < db.countP (fun r => getCol r "MLS_Point_Code" == some code) →
      (update_mls_data db (some code) (some col) (some v)).1 =
        ⟨200, true, "Data updated successfully"⟩) := by
  rw [update_mls_data_main db code col v hc hcol]
  constructor
  · intro h0
    simp [h0]
  · intro hpos
    simp [Nat.pos_iff_ne_zero.mp hpos]

/-- C5, witness: a concrete update against an absent code gives 404 and
against a present code gives success. -/
theorem C5_update_rowcount_witness :
    (update_mls_data [] (some "P9") (some "Status") (some "x")).1 =
      ⟨404, false, "No record found or no changes made."⟩ ∧
    (update_mls_data [[("MLS_Point_Code", some "P1")]] (some "P1")
      (some "Status") (some "x")).1 =
      ⟨200, true, "Data updated successfully"⟩ := by
  constructor
  · exact (C5_update_rowcount [] "P9" "Status" "x" (by decide)
      (by decide)).1 (by decide)
  · exact (C5_update_rowcount [[("MLS_Point_Code", some "P1")]] "P1"
      "Status" "x" (by decide) (by decide)).2 (by decide)

theorem contains_true_iff {l : List String} {a : String} :
    (l.contains a = true) ↔ a ∈ l := by
  simp

/-- C3: an insert request whose MLS_Point_Code (present and non-empty)
already occurs in the table takes the duplicate-key branch: HTTP 409
with the dedicated conflict message, distinct from the generic
database-error response, and the table — in particular the existing
row — is unchanged. -/
theorem C3_insert_duplicate (db : List Row) (data : List (String × Value))
    (code : String) (hcode : getCol data "MLS_Point_Code" = some code)
    (hc : code ≠ "")
    (hdup : ∃ r ∈ db, getCol r "MLS_Point_Code" = some code) :
    (add_mls_data db data).1 =
      ⟨409, false, "MLS Point Code already exists. Please use a unique code."⟩ ∧
    (add_mls_data db data).2 = db := by
  have hkey : "MLS_Point_Code" ∈ data.map Prod.fst :=
    mem_keys_of_lookup (lookup_isSome_of_getCol hcode)
  have hne : data ≠ [] := by
    rintro rfl
    simp at hkey
  have hempty : data.isEmpty = false := List.isEmpty_eq_false.mpr hne
  have hcontains : (((data.map Prod.fst).filter
      (fun c => c ∈ EDITABLE_COLS)).contains "MLS_Point_Code") = true :=
    contains_true_iff.mpr (List.mem_filter.mpr ⟨hkey, by decide⟩)
  have htruthy : truthy (getCol data "MLS_Point_Code") = true := by
    rw [hcode]
    simp [truthy, hc]
  have hany : (db.any (fun r =>
      getCol r "MLS_Point_Code" == getCol data "MLS_Point_Code")) = true := by
    rw [List.any_eq_true]
    obtain ⟨r, hrdb, hr⟩ := hdup
    exact ⟨r, hrdb, by rw [hr, hcode]; simp⟩
  have hcond : ((!(((data.map Prod.fst).filter
      (fun c => c ∈ EDITABLE_COLS)).contains "MLS_Point_Code"))
      || !truthy (getCol data "MLS_Point_Code")) = false := by
    rw [hcontains, htruthy]
    rfl
  simp only [add_mls_data]
  rw [hempty, hcond, hany]
  simp

/-- C3, witness: inserting a concrete duplicate code gives 409 and
leaves the one-row table unchanged. -/
theorem C3_insert_duplicate_witness :
    (add_mls_data [[("MLS_Point_Code", some "P1")]]
      [("MLS_Point_Code", some "P1"), ("Status", some "A")]).1 =
      ⟨409, false,
        "MLS Point Code already exists. Please use a unique code."⟩ ∧
    (add_mls_data [[("MLS_Point_Code", some "P1")]]
      [("MLS_Point_Code", some "P1"), ("Status", some "A")]).2 =
      [[("MLS_Point_Code", some "P1")]] :=
  C3_insert_duplicate _ _ "P1" (by decide) (by decide)
    ⟨[("MLS_Point_Code", some "P1")], by decide, by decide⟩

/-- C4: an insert request that does not supply a non-empty
MLS_Point_Code among its keys is rejected with HTTP 400,
`success = false`, and no write; and every successful insert persists
exactly the allow-listed fields of the supplied mapping as one new row,
silently dropping all non-allow-listed keys. -/
theorem C4_insert_required_and_allowlisted (db : List Row)
    (data : List (String × Value)) :
    (¬ ("MLS_Point_Code" ∈ data.map Prod.fst ∧
        truthy (getCol data "MLS_Point_Code") = true) →
      (add_mls_data db data).1.status = 400 ∧
      (add_mls_data db data).1.success = false ∧
      (add_mls_data db data).2 = db) ∧
    ((add_mls_data db data).1.success = true →
      (add_mls_data db data).2 =
        db ++ [data.filter (fun p => p.1 ∈ EDITABLE_COLS)]) := by
  constructor
  · intro hmiss
    by_cases he : data.isEmpty = true
    · simp [add_mls_data, he]
    · have he' : data.isEmpty = false := by
        cases hq : data.isEmpty
        · rfl
        · exact absurd hq he
      have hcond : ((!(((data.map Prod.fst).filter
          (fun c => c ∈ EDITABLE_COLS)).contains "MLS_Point_Code"))
          || !truthy (getCol data "MLS_Point_Code")) = true := by
        by_cases hk : (((data.map Prod.fst).filter
            (fun c => c ∈ EDITABLE_COLS)).contains "MLS_Point_Code") = true
        · have hkey : "MLS_Point_Code" ∈ data.map Prod.fst :=
            (List.mem_filter.mp (contains_true_iff.mp hk)).1
          cases ht : truthy (getCol data "MLS_Point_Code") with
          | false => simp [ht]
          | true => exact absurd ⟨hkey, ht⟩ hmiss
        · have hk' : (((data.map Prod.fst).filter
              (fun c => c ∈ EDITABLE_COLS)).contains "MLS_Point_Code")
              = false := by
            cases hkk : (((data.map Prod.fst).filter
                (fun c => c ∈ EDITABLE_COLS)).contains "MLS_Point_Code")
            · rfl
            · exact absurd hkk hk
          rw [hk']
          rfl
      simp only [add_mls_data]
      rw [he', hcond]
      simp
  · intro hs
    simp only [add_mls_data] at hs ⊢
    split_ifs at hs ⊢ with h1 h2 h3
    all_goals rfl

/-- C4, witness: a concrete insert without a point code is rejected
with 400 and no write, and a concrete successful insert persists only
the allow-listed fields. -/
theorem C4_insert_required_and_allowlisted_witness :
    ((add_mls_data [] [("Status", some "A")]).1.status = 400 ∧
     (add_mls_data [] [("Status", some "A")]).1.success = false ∧
     (add_mls_data [] [("Status", some "A")]).2 = []) ∧
    (add_mls_data [] [("MLS_Point_Code", some "P1"),
        ("Junk_Column", some "x")]).2 =
      [] ++ [List.filter (fun p => p.1 ∈ EDITABLE_COLS)
        [("MLS_Point_Code", some "P1"), ("Junk_Column", some "x")]] := by
  constructor
  · exact (C4_insert_required_and_allowlisted [] [("Status", some "A")]).1
      (by decide)
  · exact (C4_insert_required_and_allowlisted []
      [("MLS_Point_Code", some "P1"), ("Junk_Column", some "x")]).2
      (by decide)

/-- C6: a delete request naming a non-empty point code that matches no
row returns HTTP 404 with `success = false` and the "Record not found"
message, and the table is unchanged. -/
theorem C6_delete_not_found (db : List Row) (code : String)
    (hc : code ≠ "")
    (hmiss : ∀ r ∈ db, getCol r "MLS_Point_Code" ≠ some code) :
    (delete_mls_data db (some code)).1 = ⟨404, false, "Record not found"⟩ ∧
    (delete_mls_data db (some code)).2 = db := by
  have ht : truthy (some code) = true := by
    simp [truthy, hc]
  have hcount : db.countP
      (fun r => getCol r "MLS_Point_Code" == some code) = 0 :=
    List.countP_eq_zero.mpr (fun r hr => by simp [hmiss r hr])
  have hfill : db.filter
      (fun r => !(getCol r "MLS_Point_Code" == some code)) = db :=
    List.filter_eq_self.mpr (fun r hr => by simp [hmiss r hr])
  simp [delete_mls_data, ht, hcount, hfill]

/-- C6, witness: deleting a concrete absent code gives 404 and leaves
the one-row table unchanged. -/
theorem C6_delete_not_found_witness :
    (delete_mls_data [[("MLS_Point_Code", some "P1")]] (some "P2")).1 =
      ⟨404, false, "Record not found"⟩ ∧
    (delete_mls_data [[("MLS_Point_Code", some "P1")]] (some "P2")).2 =
      [[("MLS_Point_Code", some "P1")]] :=
  C6_delete_not_found _ "P2" (by decide) (by decide)

theorem get_unique_values_cases (db : Database) (col : String)
    (fc fv : Option String) :
    get_unique_values db col fc fv = [] ∨
    ∃ l, get_unique_values db col fc fv = sortedDedup l := by
  rcases fc with _ | fcv
  · simp only [get_unique_values]
    split_ifs <;> first | exact Or.inl rfl | exact Or.inr ⟨_, rfl⟩
  · simp only [get_unique_values]
    split_ifs <;> first | exact Or.inl rfl | exact Or.inr ⟨_, rfl⟩

/-- C7: the distinct-values query returns a list that is sorted and
duplicate-free; a column outside the schema produces the empty list
rather than an error; an absent or "All" filter value applies no filter
at all (the result is that of the unfiltered query); and in the
unfiltered case the result contains exactly the string values present
in the column, with nulls removed. -/
theorem C7_unique_values (db : Database) (column_name : String)
    (fc fv : Option String) :
    List.Sorted (fun a b => strLe a b = true)
      (get_unique_values db column_name fc fv) ∧
    (get_unique_values db column_name fc fv).Nodup ∧
    (column_name ∉ db.schema → get_unique_values db column_name fc fv = []) ∧
    ((fv = none ∨ fv = some "All") →
      get_unique_values db column_name fc fv =
        get_unique_values db column_name none none) ∧
    (column_name ∈ db.schema →
      ∀ s, s ∈ get_unique_values db column_name none none ↔
        ∃ r ∈ db.rows, getCol r column_name = some s) := by
  refine ⟨?_, ?_, ?_, ?_, ?_⟩
  · rcases get_unique_values_cases db column_name fc fv with h | ⟨l, h⟩
    · rw [h]
      exact List.sorted_nil
    · rw [h]
      exact sortedDedup_sorted l
  · rcases get_unique_values_cases db column_name fc fv with h | ⟨l, h⟩
    · rw [h]
      exact List.nodup_nil
    · rw [h]
      exact sortedDedup_nodup l
  · intro hnot
    unfold get_unique_values
    rw [if_neg hnot]
  · intro hfv
    have hfa : filterActive fc fv = false := by
      rcases hfv with rfl | rfl
      · simp [filterActive, truthy]
      · simp [filterActive, truthy]
    unfold get_unique_values
    rw [hfa]
    simp [filterActive, truthy]
  · intro hmem s
    unfold get_unique_values
    rw [if_pos hmem]
    have hfa0 : filterActive none none = false := rfl
    rw [hfa0]
    simp only [Bool.false_eq_true, if_false]
    rw [mem_sortedDedup, List.mem_filterMap]

/-- C7, witness: on a concrete two-row table the query on a column
outside the schema gives the empty list, and membership in the
unfiltered distinct list coincides with the column values. -/
theorem C7_unique_values_witness :
    get_unique_values
      ⟨["District_Name"],
       [[("District_Name", some "B")], [("District_Name", some "A")]]⟩
      "Bogus_Column" none none = [] ∧
    ("A" ∈ get_unique_values
      ⟨["District_Name"],
       [[("District_Name", some "B")], [("District_Name", some "A")]]⟩
      "District_Name" none none ↔
      ∃ r ∈ [[("District_Name", some "B")], [("District_Name", some "A")]],
        getCol r "District_Name" = some "A") := by
  constructor
  · exact (C7_unique_values
      ⟨["District_Name"],
       [[("District_Name", some "B")], [("District_Name", some "A")]]⟩
      "Bogus_Column" none none).2.2.1 (by decide)
  · exact (C7_unique_values
      ⟨["District_Name"],
       [[("District_Name", some "B")], [("District_Name", some "A")]]⟩
      "District_Name" none none).2.2.2.2 (by decide) "A"

theorem balancedTrace_nil (execOk : Bool) : balancedTrace [] execOk := by
  cases execOk <;> simp [balancedTrace]

theorem balancedTrace_dbPhase (execOk : Bool) :
    balancedTrace (dbPhaseTrace execOk) execOk := by
  cases execOk
  · unfold balancedTrace dbPhaseTrace
    decide
  · unfold balancedTrace dbPhaseTrace
    decide

/-- C8, counterexample: the claim says each mutation request opens a
connection, executes exactly one statement and commits.  But an update
request rejected by the allow-list check executes no statement at all
(its resource trace is empty), and a request whose single statement
raises an exception never reaches `conn.commit()`. -/
theorem C8_counterexample :
    (update_mls_trace (some "P1") (some "Not_A_Column") (some "x")
      true).count DBEvent.execute = 0 ∧
    (update_mls_trace (some "P1") (some "Status") (some "x")
      false).count DBEvent.commit = 0 := by
  decide

theorem dbPhaseTrace_counts (execOk : Bool) :
    (dbPhaseTrace execOk).count DBEvent.openConn = 1 ∧
    (dbPhaseTrace execOk).count DBEvent.execute = 1 := by
  cases execOk
  · decide
  · decide

theorem update_mls_trace_eq (code col v : Value) (execOk : Bool) :
    update_mls_trace code col v execOk =
      if truthy code = true ∧ truthy col = true ∧ v ≠ none ∧
          col.getD "" ∈ EDITABLE_COLS
      then dbPhaseTrace execOk else [] := by
  unfold update_mls_trace
  by_cases h1 : (!truthy code || !truthy col || (v == none)) = true
  · rw [if_pos h1, if_neg ?_]
    rintro ⟨ha, hb, hv, -⟩
    have hv' : (v == none) = false := by
      cases v
      · exact absurd rfl hv
      · rfl
    rw [ha, hb, hv'] at h1
    simp at h1
  · rw [if_neg h1]
    have ha : truthy code = true := by
      cases hq : truthy code
      · exact absurd (by rw [hq]; rfl) h1
      · rfl
    have hb : truthy col = true := by
      cases hq : truthy col
      · exact absurd (by rw [ha, hq]; rfl) h1
      · rfl
    have hvne : v ≠ none := by
      intro hveq
      subst hveq
      exact h1 (by rw [ha, hb]; rfl)
    by_cases h2 : col.getD "" ∉ EDITABLE_COLS
    · rw [if_pos h2, if_neg ?_]
      rintro ⟨-, -, -, hm⟩
      exact h2 hm
    · rw [if_neg h2, if_pos ⟨ha, hb, hvne, not_not.mp h2⟩]

theorem add_mls_trace_eq (data : List (String × Value)) (execOk : Bool) :
    add_mls_trace data execOk =
      if data.isEmpty = false ∧
          (((data.map Prod.fst).filter
            (fun c => c ∈ EDITABLE_COLS)).contains "MLS_Point_Code") = true ∧
          truthy (getCol data "MLS_Point_Code") = true
      then dbPhaseTrace execOk else [] := by
  unfold add_mls_trace
  by_cases he : data.isEmpty = true
  · rw [if_pos he, if_neg ?_]
    rintro ⟨hf, -, -⟩
    rw [he] at hf
    cases hf
  · have he' : data.isEmpty = false := by
      cases hq : data.isEmpty
      · rfl
      · exact absurd hq he
    rw [if_neg he]
    by_cases h2 : ((!(((data.map Prod.fst).filter
        (fun c => c ∈ EDITABLE_COLS)).contains "MLS_Point_Code"))
        || !truthy (getCol data "MLS_Point_Code")) = true
    · rw [if_pos h2, if_neg ?_]
      rintro ⟨-, hcont, htr⟩
      rw [hcont, htr] at h2
      simp at h2
    · have hcont : (((data.map Prod.fst).filter
          (fun c => c ∈ EDITABLE_COLS)).contains "MLS_Point_Code") = true := by
        cases hq : (((data.map Prod.fst).filter
            (fun c => c ∈ EDITABLE_COLS)).contains "MLS_Point_Code")
        · exact absurd (by rw [hq]; rfl) h2
        · rfl
      have htr : truthy (getCol data "MLS_Point_Code") = true := by
        cases hq : truthy (getCol data "MLS_Point_Code")
        · exact absurd (by rw [hcont, hq]; rfl) h2
        · rfl
      rw [if_neg h2, if_pos ⟨he', hcont, htr⟩]

theorem delete_mls_trace_eq (code : Value) (execOk : Bool) :
    delete_mls_trace code execOk =
      if truthy code = true then dbPhaseTrace execOk else [] := by
  unfold delete_mls_trace
  cases hq : truthy code
  · simp [hq]
  · simp [hq]

/-- C8, amended: each of the three mutation handlers executes at most
one SQL statement; on every exit path each opened connection and cursor
is closed (the connection release being the last event), the number of
executed statements equals the number of opened connections, and the
commit happens exactly when the statement raised no exception.  For
each handler, a request rejected by its pre-connection validation opens
no connection and executes no statement (its trace is empty), and a
request that passes validation opens exactly one connection and
executes exactly one statement. -/
theorem C8_resource_discipline (code col v : Value)
    (data : List (String × Value)) (execOk : Bool) :
    balancedTrace (update_mls_trace code col v execOk) execOk ∧
    balancedTrace (add_mls_trace data execOk) execOk ∧
    balancedTrace (delete_mls_trace code execOk) execOk ∧
    (¬ (truthy code = true ∧ truthy col = true ∧ v ≠ none ∧
        col.getD "" ∈ EDITABLE_COLS) →
      update_mls_trace code col v execOk = []) ∧
    ((truthy code = true ∧ truthy col = true ∧ v ≠ none ∧
        col.getD "" ∈ EDITABLE_COLS) →
      (update_mls_trace code col v execOk).count DBEvent.openConn = 1 ∧
      (update_mls_trace code col v execOk).count DBEvent.execute = 1) ∧
    (¬ (data.isEmpty = false ∧
        (((data.map Prod.fst).filter
          (fun c => c ∈ EDITABLE_COLS)).contains "MLS_Point_Code") = true ∧
        truthy (getCol data "MLS_Point_Code") = true) →
      add_mls_trace data execOk = []) ∧
    ((data.isEmpty = false ∧
        (((data.map Prod.fst).filter
          (fun c => c ∈ EDITABLE_COLS)).contains "MLS_Point_Code") = true ∧
        truthy (getCol data "MLS_Point_Code") = true) →
      (add_mls_trace data execOk).count DBEvent.openConn = 1 ∧
      (add_mls_trace data execOk).count DBEvent.execute = 1) ∧
    (truthy code = false → delete_mls_trace code execOk = []) ∧
    (truthy code = true →
      (delete_mls_trace code execOk).count DBEvent.openConn = 1 ∧
      (delete_mls_trace code execOk).count DBEvent.execute = 1) := by
  have hu := update_mls_trace_eq code col v execOk
  have ha := add_mls_trace_eq data execOk
  have hd := delete_mls_trace_eq code execOk
  refine ⟨?_, ?_, ?_, ?_, ?_, ?_, ?_, ?_, ?_⟩
  · rw [hu]
    split_ifs
    · exact balancedTrace_dbPhase execOk
    · exact balancedTrace_nil execOk
  · rw [ha]
    split_ifs
    · exact balancedTrace_dbPhase execOk
    · exact balancedTrace_nil execOk
  · rw [hd]
    split_ifs
    · exact balancedTrace_dbPhase execOk
    · exact balancedTrace_nil execOk
  · intro hnp
    rw [hu, if_neg hnp]
  · intro hp
    rw [hu, if_pos hp]
    exact dbPhaseTrace_counts execOk
  · intro hnp
    rw [ha, if_neg hnp]
  · intro hp
    rw [ha, if_pos hp]
    exact dbPhaseTrace_counts execOk
  · intro hf
    rw [hd, if_neg (by simp [hf])]
  · intro ht
    rw [hd, if_pos ht]
    exact dbPhaseTrace_counts execOk

/-- C8, witness: concrete rejected requests of each handler leave an
empty trace, and concrete valid requests of each handler open one
connection and execute one statement. -/
theorem C8_resource_discipline_witness :
    update_mls_trace (some "P1") (some "Not_A_Column") (some "x") true = [] ∧
    (update_mls_trace (some "P1") (some "Status") (some "x") true).count
      DBEvent.openConn = 1 ∧
    (update_mls_trace (some "P1") (some "Status") (some "x") true).count
      DBEvent.execute = 1 ∧
    add_mls_trace [] true = [] ∧
    (add_mls_trace [("MLS_Point_Code", some "P1")] true).count
      DBEvent.openConn = 1 ∧
    (add_mls_trace [("MLS_Point_Code", some "P1")] true).count
      DBEvent.execute = 1 ∧
    delete_mls_trace none true = [] ∧
    (delete_mls_trace (some "P1") true).count DBEvent.openConn = 1 ∧
    (delete_mls_trace (some "P1") true).count DBEvent.execute = 1 := by
  obtain ⟨-, -, -, hur, -, -, -, -, -⟩ :=
    C8_resource_discipline (some "P1") (some "Not_A_Column") (some "x") [] true
  obtain ⟨-, -, -, -, hup, -, hap, -, hdp⟩ :=
    C8_resource_discipline (some "P1") (some "Status") (some "x")
      [("MLS_Point_Code", some "P1")] true
  obtain ⟨-, -, -, -, -, har, -, hdr, -⟩ :=
    C8_resource_discipline none none none [] true
  exact ⟨hur (by decide), (hup (by decide)).1, (hup (by decide)).2,
    har (by decide), (hap (by decide)).1, (hap (by decide)).2,
    hdr (by decide), (hdp (by decide)).1, (hdp (by decide)).2⟩
